import Mathlib

set_option maxRecDepth 100000

/-!
Verification development for the TM2 ingestion pipeline
(`app/services/mongo_service.py`, `app/services/ingestion_service.py`,
`app/services/openmrs_client.py`, `app/models/tm2_data.py`).

The Python record dictionaries are embedded as association lists of
`PyVal` values; `dict.get(k, default)` becomes `PyDict.getD`.  Machine
arithmetic inside SHA-256 is on `Nat` with explicit `% 2 ^ 32`.
Timestamps (`datetime.now`) are threaded explicitly as `Nat` arguments.
-/

/-- Python values occurring in the record dicts of the pipeline.  A float is
carried by its Python `str()` rendering (e.g. `42.0` as `"42.0"`); no
float arithmetic happens anywhere in the embedded code paths. -/
inductive PyVal where
  | none
  | str (s : String)
  | float (repr : String)
deriving DecidableEq

/-- Python `str()` on a `PyVal` (as used by f-string interpolation and
`str(...)` in `compute_idempotency_key`). -/
def pyStr : PyVal → String
  | .none => "None"
  | .str s => s
  | .float r => r

/-- A Python dict of record fields: insertion-ordered association list. -/
abbrev PyDict := List (String × PyVal)

/-- Python `d[k]` presence lookup (`k in d` / `d.get(k)` without default). -/
def PyDict.get (d : PyDict) (k : String) : Option PyVal :=
  (d.find? (fun p => p.1 == k)).map (fun p => p.2)

/-- Python `d.get(k, default)`: the default is used only when the key is
absent; a key present with value `None` yields `None`. -/
def PyDict.getD (d : PyDict) (k : String) (v : PyVal) : PyVal :=
  match d.get k with
  | some w => w
  | Option.none => v

/-- Python `d[k] = v`: replace the value of an existing key in place,
else append the new key. -/
def PyDict.set (d : PyDict) (k : String) (v : PyVal) : PyDict :=
  match d with
  | [] => [(k, v)]
  | p :: ps => if p.1 = k then (k, v) :: ps else p :: PyDict.set ps k v

/-! ## SHA-256 (`hashlib.sha256(...).hexdigest()`)

Word arithmetic is `Nat` reduced `% 2 ^ 32`.  The round and initial-state
constants are computed from the fractional parts of the cube and square
roots of the first primes, exactly as the FIPS 180-4 standard defines
them, so the table cannot be mistyped. -/

def w32 (n : Nat) : Nat := n % 2 ^ 32

def rotr32 (x n : Nat) : Nat := w32 ((x >>> n) ||| (x <<< (32 - n)))

def not32 (x : Nat) : Nat := 2 ^ 32 - 1 - w32 x

def bigSigma0 (x : Nat) : Nat := rotr32 x 2 ^^^ rotr32 x 13 ^^^ rotr32 x 22

def bigSigma1 (x : Nat) : Nat := rotr32 x 6 ^^^ rotr32 x 11 ^^^ rotr32 x 25

def smallSigma0 (x : Nat) : Nat := rotr32 x 7 ^^^ rotr32 x 18 ^^^ (x >>> 3)

def smallSigma1 (x : Nat) : Nat := rotr32 x 17 ^^^ rotr32 x 19 ^^^ (x >>> 10)

def chFn (x y z : Nat) : Nat := (x &&& y) ^^^ (not32 x &&& z)

def majFn (x y z : Nat) : Nat := (x &&& y) ^^^ (x &&& z) ^^^ (y &&& z)

/-- Integer cube root by fuelled binary search (largest `r` with
`r ^ 3 ≤ n`, for the constant table below). -/
def icbrtGo (n : Nat) : Nat → Nat → Nat → Nat
  | 0, lo, _ => lo
  | fuel + 1, lo, hi =>
    if hi ≤ lo + 1 then lo
    else
      let mid := (lo + hi) / 2
      if mid ^ 3 ≤ n then icbrtGo n fuel mid hi else icbrtGo n fuel lo mid

def icbrt (n : Nat) : Nat := icbrtGo n 220 0 (n + 1)

/-- Integer square root by fuelled binary search (largest `r` with
`r ^ 2 ≤ n`; `Nat.sqrt` itself is defined by well-founded recursion and
does not reduce inside the kernel). -/
def isqrtGo (n : Nat) : Nat → Nat → Nat → Nat
  | 0, lo, _ => lo
  | fuel + 1, lo, hi =>
    if hi ≤ lo + 1 then lo
    else
      let mid := (lo + hi) / 2
      if mid ^ 2 ≤ n then isqrtGo n fuel mid hi else isqrtGo n fuel lo mid

def isqrt (n : Nat) : Nat := isqrtGo n 220 0 (n + 1)

def first64Primes : List Nat :=
  [2, 3, 5, 7, 11, 13, 17, 19, 23, 29, 31, 37, 41, 43, 47, 53,
   59, 61, 67, 71, 73, 79, 83, 89, 97, 101, 103, 107, 109, 113, 127, 131,
   137, 139, 149, 151, 157, 163, 167, 173, 179, 181, 191, 193, 197, 199, 211, 223,
   227, 229, 233, 239, 241, 251, 257, 263, 269, 271, 277, 281, 283, 293, 307, 311]

/-- The 64 SHA-256 round constants: first 32 bits of the fractional parts
of the cube roots of the first 64 primes. -/
def sha256K : List Nat := first64Primes.map (fun p => icbrt (p * 2 ^ 96) % 2 ^ 32)

/-- Working state: eight 32-bit words. -/
structure Hash8 where
  a : Nat
  b : Nat
  c : Nat
  d : Nat
  e : Nat
  f : Nat
  g : Nat
  h : Nat
deriving DecidableEq

/-- Initial hash: first 32 bits of the fractional parts of the square
roots of the first 8 primes. -/
def sha256H0 : Hash8 :=
  match (first64Primes.take 8).map (fun p => isqrt (p * 2 ^ 64) % 2 ^ 32) with
  | [a, b, c, d, e, f, g, h] => ⟨a, b, c, d, e, f, g, h⟩
  | _ => ⟨0, 0, 0, 0, 0, 0, 0, 0⟩

/-- Merkle–Damgård padding: append `0x80`, zero bytes to 56 mod 64, then
the bit length as 8 big-endian bytes. -/
def sha256Pad (msg : List Nat) : List Nat :=
  let len := msg.length
  let zeros := (119 - len % 64) % 64
  let bitLen := 8 * len
  msg ++ [0x80] ++ List.replicate zeros 0 ++
    (List.range 8).map (fun i => bitLen >>> (8 * (7 - i)) % 256)

def bytesToWord (bs : List Nat) : Nat := bs.foldl (fun acc b => acc * 256 + b) 0

/-- Message schedule: the 16 chunk words extended to 64. -/
def sha256Schedule (chunk : List Nat) : List Nat :=
  let w16 := (List.range 16).map (fun j => bytesToWord ((chunk.drop (4 * j)).take 4))
  (List.range 48).foldl
    (fun w _ =>
      let n := w.length
      w ++ [w32 (smallSigma1 (w.getD (n - 2) 0) + w.getD (n - 7) 0 +
                 smallSigma0 (w.getD (n - 15) 0) + w.getD (n - 16) 0)])
    w16

def sha256Round (k wi : Nat) (s : Hash8) : Hash8 :=
  let t1 := w32 (s.h + bigSigma1 s.e + chFn s.e s.f s.g + k + wi)
  let t2 := w32 (bigSigma0 s.a + majFn s.a s.b s.c)
  ⟨w32 (t1 + t2), s.a, s.b, s.c, w32 (s.d + t1), s.e, s.f, s.g⟩

def sha256Compress (s : Hash8) (chunk : List Nat) : Hash8 :=
  let w := sha256Schedule chunk
  let t := (List.range 64).foldl (fun st i => sha256Round (sha256K.getD i 0) (w.getD i 0) st) s
  ⟨w32 (s.a + t.a), w32 (s.b + t.b), w32 (s.c + t.c), w32 (s.d + t.d),
   w32 (s.e + t.e), w32 (s.f + t.f), w32 (s.g + t.g), w32 (s.h + t.h)⟩

/-- SHA-256 over a byte sequence, producing the eight final words. -/
def sha256Words (msg : List Nat) : Hash8 :=
  let padded := sha256Pad msg
  (List.range (padded.length / 64)).foldl
    (fun s i => sha256Compress s ((padded.drop (64 * i)).take 64)) sha256H0

def hexChar (n : Nat) : Char :=
  if n < 10 then Char.ofNat (48 + n) else Char.ofNat (87 + n)

def byteHex (b : Nat) : String := String.mk [hexChar (b / 16 % 16), hexChar (b % 16)]

def wordHex (w : Nat) : String :=
  byteHex (w >>> 24 % 256) ++ byteHex (w >>> 16 % 256) ++ byteHex (w >>> 8 % 256) ++ byteHex (w % 256)

def Hash8.hexdigest (s : Hash8) : String :=
  wordHex s.a ++ wordHex s.b ++ wordHex s.c ++ wordHex s.d ++
  wordHex s.e ++ wordHex s.f ++ wordHex s.g ++ wordHex s.h

/-- UTF-8 encoding of a string as a byte list (the body of
`String.toUTF8`, inlined because `ByteArray.toList` does not reduce in
the kernel). -/
def strUtf8 (s : String) : List Nat :=
  (s.data.flatMap String.utf8EncodeChar).map (fun b => b.toNat)

/-- Model of `hashlib.sha256(s.encode("utf-8")).hexdigest()`. -/
def sha256hex (s : String) : String :=
  (sha256Words (strUtf8 s)).hexdigest

/-! ## `MongoService.compute_idempotency_key`
(`app/services/mongo_service.py`, lines 55-66) -/

/-- The `"value"` entry of `key_data`:
`str(record.get("value_numeric", record.get("value_text", record.get("value_coded", ""))))`.
Note that `dict.get` falls through only on *absent* keys: a key present
with value `None` stops the chain and stringifies to `"None"`. -/
def valueAsString (record : PyDict) : String :=
  pyStr (record.getD "value_numeric"
    (record.getD "value_text" (record.getD "value_coded" (.str ""))))

/-- The `key_data` dict, in source insertion order. -/
def keyDataEntries (record : PyDict) : List (String × PyVal) :=
  [("patient_identifier", record.getD "patient_identifier" (.str "")),
   ("encounter_datetime", record.getD "encounter_datetime" (.str "")),
   ("tm2_code", record.getD "tm2_code" (.str "")),
   ("value", .str (valueAsString record))]

/-- Python string `<`: lexicographic comparison of code points. -/
def charsLt : List Char → List Char → Bool
  | [], [] => false
  | [], _ :: _ => true
  | _ :: _, [] => false
  | c :: cs, d :: ds =>
    if c.toNat < d.toNat then true
    else if d.toNat < c.toNat then false
    else charsLt cs ds

def strLt (a b : String) : Bool := charsLt a.data b.data

/-- Insertion step for `sorted(key_data.items())` (ordering on the keys). -/
def insertSortedKV (p : String × PyVal) : List (String × PyVal) → List (String × PyVal)
  | [] => [p]
  | q :: qs => if strLt p.1 q.1 then p :: q :: qs else q :: insertSortedKV p qs

def sortByKey (l : List (String × PyVal)) : List (String × PyVal) :=
  l.foldr insertSortedKV []

/-- Model of `"|".join(f"{k}:{v}" for k, v in ...)`. -/
def renderJoin : List (String × PyVal) → String
  | [] => ""
  | [kv] => kv.1 ++ ":" ++ pyStr kv.2
  | kv :: rest => kv.1 ++ ":" ++ pyStr kv.2 ++ "|" ++ renderJoin rest

/-- Model of `normalized = "|".join(f"{k}:{v}" for k, v in sorted(key_data.items()))`. -/
def canonicalKeyString (record : PyDict) : String :=
  renderJoin (sortByKey (keyDataEntries record))

/-- Model of `MongoService.compute_idempotency_key` (also reused verbatim by
`IngestionService._compute_idempotency_key`). -/
def compute_idempotency_key (record : PyDict) : String :=
  sha256hex (canonicalKeyString record)

/-- The four logical fields the key function reads, each rendered the way
the f-string renders it. -/
def keyFields (record : PyDict) : String × String × String × String :=
  (pyStr (record.getD "patient_identifier" (.str "")),
   pyStr (record.getD "encounter_datetime" (.str "")),
   pyStr (record.getD "tm2_code" (.str "")),
   valueAsString record)

def canonicalOfFields : String × String × String × String → String :=
  fun q =>
    renderJoin
      [("encounter_datetime", .str q.2.1), ("patient_identifier", .str q.1),
       ("tm2_code", .str q.2.2.1), ("value", .str q.2.2.2)]

/-! ## `MongoService` persistence model
(`app/services/mongo_service.py`, lines 68-173)

The primary collection is a list of documents in storage order.  A
document holds exactly the fields the service ever writes; `Option`
encodes Mongo field absence (`$exists`), and `Nat` stands for the
`datetime.now(timezone.utc)` timestamps, which are threaded explicitly.
The sequential model omits the `DuplicateKeyError` / `PyMongoError`
handlers, which only fire on concurrent-write races and transient store
failures. -/

structure StoredDoc where
  idempotency_key : String
  data : PyDict
  status : String
  batch_id : String
  created_at : Nat
  updated_at : Nat
  first_seen : Option Nat
  submitted_at : Option Nat
  submission_error : Option String
deriving DecidableEq

/-- The `$set` part of the upsert: `record_doc` (lines 71-78). Fields not
listed in `record_doc` (`first_seen`, `submitted_at`, `submission_error`)
are untouched. -/
def recordDocSet (key : String) (record : PyDict) (batch_id : String) (now : Nat)
    (d : StoredDoc) : StoredDoc :=
  { d with
    idempotency_key := key, data := record, status := "processed",
    batch_id := batch_id, created_at := now, updated_at := now }

/-- A freshly upserted document: the `$set` fields plus
`$setOnInsert: first_seen`; the remaining fields are absent. -/
def newStoredDoc (key : String) (record : PyDict) (batch_id : String) (now : Nat) : StoredDoc :=
  { idempotency_key := key, data := record, status := "processed",
    batch_id := batch_id, created_at := now, updated_at := now,
    first_seen := some now, submitted_at := none, submission_error := none }

/-- Model of `update_one(filter, {"$set": ...})` on the first document matching the
key; the returned `Bool` is `modified_count > 0` (Mongo counts a document
as modified only when the update actually changed it). -/
def updateFirst (col : List StoredDoc) (key : String) (f : StoredDoc → StoredDoc) :
    List StoredDoc × Bool :=
  match col with
  | [] => ([], false)
  | d :: ds =>
    if d.idempotency_key = key then
      (f d :: ds, if f d = d then false else true)
    else
      let r := updateFirst ds key f
      (d :: r.1, r.2)

/-- Model of `MongoService.upsert_record` (lines 68-92): returns the new collection
and `result.upserted_id is not None or result.modified_count > 0`. -/
def upsert_record (col : List StoredDoc) (record : PyDict) (batch_id : String) (now : Nat) :
    List StoredDoc × Bool :=
  let key := compute_idempotency_key record
  if (col.find? (fun d => d.idempotency_key == key)).isSome then
    updateFirst col key (recordDocSet key record batch_id now)
  else
    (col ++ [newStoredDoc key record batch_id now], true)

/-- The projection `{"_id": 0, "idempotency_key": 1, "data": 1, "batch_id": 1}`. -/
structure PendingDoc where
  idempotency_key : String
  data : PyDict
  batch_id : String
deriving DecidableEq

/-- The filter `{"status": "processed", "submitted_at": {"$exists": False}}`. -/
def isPending (d : StoredDoc) : Bool :=
  d.status == "processed" && d.submitted_at == none

def projectPending (d : StoredDoc) : PendingDoc :=
  ⟨d.idempotency_key, d.data, d.batch_id⟩

/-- Model of `MongoService.get_pending_records` (lines 126-136): filtered find in
storage order, capped by `.limit(limit)`. -/
def get_pending_records (col : List StoredDoc) (limit : Nat) : List PendingDoc :=
  ((col.filter isPending).take limit).map projectPending

/-- Model of `MongoService.mark_submitted` (lines 138-156). -/
def mark_submitted (col : List StoredDoc) (idempotency_key : String) (success : Bool)
    (error_msg : Option String) (now : Nat) : List StoredDoc :=
  (updateFirst col idempotency_key (fun d =>
    if success then
      { d with updated_at := now, status := "submitted", submitted_at := some now }
    else
      { d with updated_at := now, status := "submission_failed",
               submission_error := error_msg })).1

structure DLQDoc where
  original_record : PyDict
  error_message : String
  batch_id : String
  created_at : Nat
deriving DecidableEq

/-- Model of `delete_one` by idempotency key: removes the first match. -/
def deleteFirst (col : List StoredDoc) (key : String) : List StoredDoc :=
  match col with
  | [] => []
  | d :: ds => if d.idempotency_key = key then ds else d :: deleteFirst ds key

/-- Model of `MongoService.move_to_dlq` (lines 158-173): append the DLQ document,
then delete the primary document under the key *recomputed* from the
record data. -/
def move_to_dlq (col : List StoredDoc) (dlq : List DLQDoc) (record : PyDict)
    (error_msg batch_id : String) (now : Nat) : List StoredDoc × List DLQDoc :=
  let dlq' := dlq ++ [⟨record, error_msg, batch_id, now⟩]
  let key := compute_idempotency_key record
  (deleteFirst col key, dlq')

/-! ## TM2 data models (`app/models/tm2_data.py`)

`RawTM2Record` and `TransformedTM2Record` become structures; the pydantic
field validators become explicit checks in the validation functions.
Dates and datetimes are carried as their ISO strings: pydantic parses the
incoming ISO string and `_validate_and_transform` immediately calls
`.isoformat()`, which round-trips (malformed date strings, which pydantic
would reject, are not modelled — no claim depends on them).  CSV numeric
coercion is likewise not modelled: a numeric value arrives as
`PyVal.float` carrying its Python `str()` rendering. -/

structure RawTM2Record where
  patient_identifier : String
  given_name : Option String
  family_name : Option String
  gender : Option String
  birthdate : Option String
  encounter_datetime : Option String
  location_uuid : Option String
  provider_uuid : Option String
  tm2_code : String
  value_numeric : Option String
  value_text : Option String
  value_coded : Option String
deriving DecidableEq

structure TransformedTM2Record where
  patient_identifier : String
  given_name : Option String
  family_name : Option String
  gender : Option String
  birthdate : Option String
  encounter_datetime : Option String
  location_uuid : Option String
  provider_uuid : Option String
  tm2_code : String
  openmrs_concept_uuid : Option String
  value_numeric : Option String
  value_text : Option String
  value_coded : Option String
  idempotency_key : String
deriving DecidableEq

/-- A required pydantic `str` field: must be present and a string (note:
the *empty* string satisfies a plain `str` type hint). -/
def requiredStr (d : PyDict) (k : String) : Except String String :=
  match d.get k with
  | some (.str s) => .ok s
  | some _ => .error ("Input should be a valid string: " ++ k)
  | Option.none => .error ("Field required: " ++ k)

/-- An `Optional[str]` field: absent or `None` becomes `none`. -/
def optionalStr (d : PyDict) (k : String) : Except String (Option String)  :=
  match d.get k with
  | some (.str s) => .ok (some s)
  | some .none => .ok none
  | some _ => .error ("Input should be a valid string: " ++ k)
  | Option.none => .ok none

/-- Model of an `Optional[float]` field (`value_numeric`): the float is carried by its
`str()` rendering. -/
def optionalFloat (d : PyDict) (k : String) : Except String (Option String) :=
  match d.get k with
  | some (.float r) => .ok (some r)
  | some .none => .ok none
  | some _ => .error ("Input should be a valid number: " ++ k)
  | Option.none => .ok none

/-- Python `str.strip()`: drop leading and trailing whitespace.
(Implemented on the character list so it reduces inside the kernel;
`String.trim` is iterator-based and does not.) -/
def pyStrip (s : String) : String :=
  String.mk (((s.data.dropWhile Char.isWhitespace).reverse.dropWhile Char.isWhitespace).reverse)

/-- Python `str.upper()` (ASCII, which is all the validator compares). -/
def pyUpper (s : String) : String := String.mk (s.data.map Char.toUpper)

/-- The `strip_whitespace` field validator: `v.strip() if v else v`. -/
def stripV : Option String → Option String
  | some s => some (pyStrip s)
  | Option.none => none

/-- The `validate_gender` field validator: upper-case, then membership in
`("M", "F", "O", "U")`. -/
def validateGender : Option String → Except String (Option String)
  | Option.none => .ok none
  | some g =>
    let u := pyUpper g
    if u = "M" ∨ u = "F" ∨ u = "O" ∨ u = "U" then .ok (some u)
    else .error "Gender must be M, F, O, or U"

/-- Error propagation of the field-by-field pydantic validation (the
message of the first offending field is surfaced). -/
def exBind (x : Except String α) (f : α → Except String β) : Except String β :=
  match x with
  | .error e => .error e
  | .ok a => f a

/-- Model of `RawTM2Record(**raw_record)`: pydantic construction and validation. -/
def validateRawRecord (raw : PyDict) : Except String RawTM2Record :=
  exBind (requiredStr raw "patient_identifier") fun pid =>
  exBind (optionalStr raw "given_name") fun given =>
  exBind (optionalStr raw "family_name") fun family =>
  exBind (optionalStr raw "gender") fun genderRaw =>
  exBind (validateGender genderRaw) fun gender =>
  exBind (optionalStr raw "birthdate") fun birth =>
  exBind (optionalStr raw "encounter_datetime") fun enc =>
  exBind (optionalStr raw "location_uuid") fun locu =>
  exBind (optionalStr raw "provider_uuid") fun provu =>
  exBind (requiredStr raw "tm2_code") fun code =>
  exBind (optionalFloat raw "value_numeric") fun vnum =>
  exBind (optionalStr raw "value_text") fun vtext =>
  exBind (optionalStr raw "value_coded") fun vcoded =>
  .ok { patient_identifier := (stripV (some pid)).getD "",
        given_name := stripV given,
        family_name := stripV family,
        gender := gender,
        birthdate := birth,
        encounter_datetime := enc,
        location_uuid := locu,
        provider_uuid := provu,
        tm2_code := code,
        value_numeric := vnum,
        value_text := stripV vtext,
        value_coded := vcoded }

/-! ## `IngestionService._validate_and_transform`
(`app/services/ingestion_service.py`, lines 214-260) -/

/-- Python `str.split()` with no argument: split on whitespace runs,
discarding empty pieces. -/
def splitWsGo : List Char → List Char → List String
  | [], acc => if acc = [] then [] else [String.mk acc.reverse]
  | c :: cs, acc =>
    if c.isWhitespace then
      if acc = [] then splitWsGo cs [] else String.mk acc.reverse :: splitWsGo cs []
    else splitWsGo cs (c :: acc)

def pySplitWs (s : String) : List String := splitWsGo s.data []

def joinSpace : List String → String
  | [] => ""
  | [w] => w
  | w :: ws => w ++ " " ++ joinSpace ws

/-- Model of `IngestionService._clean_text` (lines 250-255):
`" ".join(text.split()).strip()` after the `if not text` guard. -/
def clean_text (text : String) : String :=
  if text = "" then ""
  else pyStrip (joinSpace (pySplitWs text))

/-- Which value slot lines 234-239 put into `transformed_data`:
`value_numeric` when not `None`, else a *truthy* (non-`None`, non-empty)
`value_text`, else a truthy `value_coded`. -/
inductive ValueSlot where
  | num (r : String)
  | text (s : String)
  | coded (s : String)
  | empty
deriving DecidableEq

def codedFallback : Option String → ValueSlot
  | some c => if c = "" then .empty else .coded c
  | Option.none => .empty

def pickValueSlot (r : RawTM2Record) : ValueSlot :=
  match r.value_numeric with
  | some n => .num n
  | Option.none =>
    match r.value_text with
    | some t => if t = "" then codedFallback r.value_coded else .text t
    | Option.none => codedFallback r.value_coded

def valueSlotEntries : ValueSlot → PyDict
  | .num n => [("value_numeric", .float n)]
  | .text t => [("value_text", .str t)]
  | .coded c => [("value_coded", .str c)]
  | .empty => []

def optPy : Option String → PyVal
  | some s => .str s
  | Option.none => .none

/-- The `transformed_data` dict of lines 220-239 (before text cleaning
and key computation), in source insertion order. -/
def transformedData (mappings : List (String × String)) (r : RawTM2Record) : PyDict :=
  [("patient_identifier", .str r.patient_identifier),
   ("given_name", optPy r.given_name),
   ("family_name", optPy r.family_name),
   ("gender", optPy r.gender),
   ("birthdate", optPy r.birthdate),
   ("encounter_datetime", optPy r.encounter_datetime),
   ("location_uuid", optPy r.location_uuid),
   ("provider_uuid", optPy r.provider_uuid),
   ("tm2_code", .str r.tm2_code),
   ("openmrs_concept_uuid", optPy ((mappings.find? (fun m => m.1 == r.tm2_code)).map (fun m => m.2)))]
  ++ valueSlotEntries (pickValueSlot r)

/-- Lines 242-243: clean the `value_text` entry in place when present. -/
def clean_text_step (td : PyDict) : PyDict :=
  match td.get "value_text" with
  | some (.str s) => td.set "value_text" (.str (clean_text s))
  | _ => td

/-- The `TransformedTM2Record(**transformed_data)` construction: the
structure fields exactly mirror the `transformed_data` dict (value slots
per `pickValueSlot`, text slot cleaned, key computed on the dict). -/
def mkTransformed (mappings : List (String × String)) (r : RawTM2Record) :
    TransformedTM2Record :=
  { patient_identifier := r.patient_identifier,
    given_name := r.given_name,
    family_name := r.family_name,
    gender := r.gender,
    birthdate := r.birthdate,
    encounter_datetime := r.encounter_datetime,
    location_uuid := r.location_uuid,
    provider_uuid := r.provider_uuid,
    tm2_code := r.tm2_code,
    openmrs_concept_uuid :=
      (mappings.find? (fun m => m.1 == r.tm2_code)).map (fun m => m.2),
    value_numeric := match pickValueSlot r with | .num n => some n | _ => none,
    value_text := match pickValueSlot r with | .text t => some (clean_text t) | _ => none,
    value_coded := match pickValueSlot r with | .coded c => some c | _ => none,
    idempotency_key := compute_idempotency_key (clean_text_step (transformedData mappings r)) }

/-- Model of `IngestionService._validate_and_transform` (lines 214-248):
validate the raw record, build `transformed_data`, clean the text slot,
compute the idempotency key on that dict, and construct
`TransformedTM2Record` (whose `idempotency_key` validator rejects an
empty key; the `hash_patient_identifier` validator is the identity under
the default `hash_identifiers = False` setting). -/
def validate_and_transform (mappings : List (String × String)) (raw : PyDict) :
    Except String TransformedTM2Record :=
  match validateRawRecord raw with
  | .error e => .error e
  | .ok r =>
    let td := clean_text_step (transformedData mappings r)
    let key := compute_idempotency_key td
    if key = "" then .error "Idempotency key must be a non-empty string"
    else .ok (mkTransformed mappings r)

/-- Model of `transformed.model_dump()`: every pydantic field is present as a key;
unpopulated optional fields appear with value `None`. -/
def TransformedTM2Record.model_dump (t : TransformedTM2Record) : PyDict :=
  [("patient_identifier", .str t.patient_identifier),
   ("given_name", optPy t.given_name),
   ("family_name", optPy t.family_name),
   ("gender", optPy t.gender),
   ("birthdate", optPy t.birthdate),
   ("encounter_datetime", optPy t.encounter_datetime),
   ("location_uuid", optPy t.location_uuid),
   ("provider_uuid", optPy t.provider_uuid),
   ("tm2_code", .str t.tm2_code),
   ("openmrs_concept_uuid", optPy t.openmrs_concept_uuid),
   ("value_numeric", match t.value_numeric with | some n => .float n | Option.none => .none),
   ("value_text", optPy t.value_text),
   ("value_coded", optPy t.value_coded),
   ("idempotency_key", .str t.idempotency_key)]

/-! ## `IngestionService.ingest_from_file`
(`app/services/ingestion_service.py`, lines 55-115)

The file system is abstracted to a map from paths to nodes; a `file` node
carries the raw records its streaming reader would yield.  The two
fail-fast checks come before any reading, so they are modelled as the
error cases of an `Except`: an error result carries no statistics and no
collection update. -/

inductive FileNode where
  | absent
  | directory
  | file (records : List PyDict)

inductive IngestErr where
  | fileNotFound (msg : String)
  | valueError (msg : String)
deriving DecidableEq

structure IngestStats where
  batch_id : String
  total_read : Nat
  valid_records : Nat
  invalid_records : Nat
  persisted_records : Nat
  errors : List String
deriving DecidableEq

def initIngestStats (batch_id : String) : IngestStats :=
  ⟨batch_id, 0, 0, 0, 0, []⟩

structure IngestState where
  col : List StoredDoc
  stats : IngestStats
deriving DecidableEq

/-- One iteration of the `async for record in self._read_records(...)`
loop (lines 82-105): count the read, validate/transform, persist the
`model_dump` on success, record the error and keep going on failure. -/
def ingestStep (mappings : List (String × String)) (batch_id : String) (now : Nat)
    (st : IngestState) (raw : PyDict) : IngestState :=
  let stats := { st.stats with total_read := st.stats.total_read + 1 }
  match validate_and_transform mappings raw with
  | .ok transformed =>
    let stats := { stats with valid_records := stats.valid_records + 1 }
    let r := upsert_record st.col transformed.model_dump batch_id now
    let stats :=
      if r.2 then { stats with persisted_records := stats.persisted_records + 1 } else stats
    ⟨r.1, stats⟩
  | .error e =>
    ⟨st.col,
     { stats with
       invalid_records := stats.invalid_records + 1,
       errors := stats.errors ++ ["Validation error: " ++ e] }⟩

/-- Model of `IngestionService.ingest_from_file`: fail fast on a missing path
(`FileNotFoundError`) or a directory (`ValueError`, lines 62-67), then
fold the record stream through `ingestStep`. -/
def ingest_from_file (mappings : List (String × String)) (fs : String → FileNode)
    (path : String) (batch_id : String) (now : Nat) (col : List StoredDoc) :
    Except IngestErr IngestState :=
  match fs path with
  | .absent => .error (.fileNotFound ("Data file not found: " ++ path))
  | .directory => .error (.valueError ("Expected a file path but got a directory: " ++ path))
  | .file records => .ok (records.foldl (ingestStep mappings batch_id now) ⟨col, initIngestStats batch_id⟩)

/-! ## `IngestionService.submit_pending_records`
(`app/services/ingestion_service.py`, lines 117-167)

`self.openmrs.submit_tm2_record(record)` either returns a Bool or
raises; the outcomes of the successive calls are supplied by an oracle
indexed by position in the pending batch. -/

inductive SubmitOutcome where
  | success
  | failFalse
  | raised (msg : String)
deriving DecidableEq

structure SubmissionStats where
  batch_id : String
  attempted : Nat
  successful : Nat
  failed : Nat
  errors : List String
deriving DecidableEq

structure SubmitState where
  col : List StoredDoc
  dlq : List DLQDoc
  stats : SubmissionStats
deriving DecidableEq

/-- One iteration of the `for record_doc in pending_records` loop
(lines 132-161).  On an exception the record is moved to the DLQ when the
*batch-wide* failure counter (already incremented) exceeds 3. -/
def submitStep (batch_id : String) (now : Nat) (st : SubmitState) (rd : PendingDoc)
    (outcome : SubmitOutcome) : SubmitState :=
  let stats := { st.stats with attempted := st.stats.attempted + 1 }
  match outcome with
  | .success =>
    { st with
      col := mark_submitted st.col rd.idempotency_key true none now,
      stats := { stats with successful := stats.successful + 1 } }
  | .failFalse =>
    let msg := "OpenMRS submission failed"
    { st with
      col := mark_submitted st.col rd.idempotency_key false (some msg) now,
      stats := { stats with failed := stats.failed + 1, errors := stats.errors ++ [msg] } }
  | .raised e =>
    let msg := "Submission error: " ++ e
    let stats := { stats with failed := stats.failed + 1, errors := stats.errors ++ [msg] }
    let col := mark_submitted st.col rd.idempotency_key false (some msg) now
    if stats.failed > 3 then
      let moved := move_to_dlq col st.dlq rd.data msg batch_id now
      { col := moved.1, dlq := moved.2, stats := stats }
    else
      { st with col := col, stats := stats }

/-- Model of `IngestionService.submit_pending_records`: fetch one bounded page of
pending records, then run the submission loop over it. -/
def submit_pending_records (col : List StoredDoc) (dlq : List DLQDoc)
    (oracle : Nat → SubmitOutcome) (limit : Nat) (batch_id : String) (now : Nat) : SubmitState :=
  let pending := get_pending_records col limit
  pending.enum.foldl (fun st p => submitStep batch_id now st p.2 (oracle p.1))
    ⟨col, dlq, ⟨batch_id, 0, 0, 0, []⟩⟩

/-! ## `OpenMRSClient.submit_tm2_record`
(`app/services/openmrs_client.py`, lines 129-208)

The three creation endpoints are abstracted by their returned UUIDs
(`none` models both a `None` return and a swallowed exception inside
`create_patient` / `create_encounter` / `create_observation`).  The model
records which creation calls are attempted, in order; the source contains
no compensating (delete) call, so the call vocabulary has none. -/

structure OpenMRSEnv where
  create_patients : Bool
  patient_result : Option String
  encounter_result : Option String
  obs_result : Option String

inductive OmrsCall where
  | createPatient
  | createEncounter
  | createObservation
deriving DecidableEq

/-- Python truthiness of an `Optional[str]`: `None` and `""` are falsy. -/
def pyTruthy : Option String → Bool
  | Option.none => false
  | some s => !(s == "")

/-- Model of `OpenMRSClient.create_patient` (lines 129-147): returns `None` when
patient creation is disabled, else the endpoint result. -/
def create_patient (env : OpenMRSEnv) : Option String :=
  if env.create_patients then env.patient_result else none

/-- Subject resolution (lines 184-188): a pre-supplied truthy
`patient_uuid` is used as-is; otherwise, with creation enabled, the
patient is created. -/
def resolvedSubject (env : OpenMRSEnv) (patient_uuid : Option String) : Option String :=
  if !(pyTruthy patient_uuid) && env.create_patients then create_patient env else patient_uuid

/-- Model of `OpenMRSClient.submit_tm2_record` (lines 181-208): subject →
encounter → observation, each step short-circuiting to `False`; the final
result is `obs_uuid is not None`.  Returns the success flag and the list
of creation calls attempted. -/
def submit_tm2_record (env : OpenMRSEnv) (_record : PyDict) (patient_uuid : Option String) :
    Bool × List OmrsCall :=
  let step1 : Option String × List OmrsCall :=
    if !(pyTruthy patient_uuid) && env.create_patients then
      (create_patient env, [.createPatient])
    else
      (patient_uuid, [])
  let pu := step1.1
  let calls := step1.2
  if !(pyTruthy pu) then (false, calls)
  else
    let calls := calls ++ [.createEncounter]
    let encounter_uuid := env.encounter_result
    if !(pyTruthy encounter_uuid) then (false, calls)
    else
      let calls := calls ++ [.createObservation]
      let obs_uuid := env.obs_result
      (obs_uuid.isSome, calls)

/-! ## Derived notions used by the stated properties -/

/-- Number of stored documents carrying a given idempotency key. -/
def countKey (col : List StoredDoc) (k : String) : Nat :=
  (col.filter (fun d => d.idempotency_key == k)).length

/-- The store operations the ingestion and submission paths perform on
the primary collection (audit/DLQ writes touch other collections). -/
inductive StoreOp where
  | upsertOp (record : PyDict) (batch_id : String) (now : Nat)
  | markOp (key : String) (success : Bool) (error_msg : Option String) (now : Nat)

def applyStoreOp (col : List StoredDoc) : StoreOp → List StoredDoc
  | .upsertOp record batch_id now => (upsert_record col record batch_id now).1
  | .markOp key success error_msg now => mark_submitted col key success error_msg now

def applyStoreOps (col : List StoredDoc) (ops : List StoreOp) : List StoredDoc :=
  ops.foldl applyStoreOp col

/-- Whether a pending page contains a record with the given key. -/
def pendingHasKey (col : List StoredDoc) (limit : Nat) (k : String) : Bool :=
  (get_pending_records col limit).any (fun p => p.idempotency_key == k)

/-- Whether the key `upsert_record` would store at the top level agrees
with the `idempotency_key` field the validator embedded in the record. -/
def keysAgree (mappings : List (String × String)) (raw : PyDict) : Bool :=
  match validate_and_transform mappings raw with
  | .ok tr => compute_idempotency_key tr.model_dump == tr.idempotency_key
  | .error _ => false

/-! ## Concrete fixtures -/

/-- A `model_dump`-shaped document whose only populated value slot is
`value_text` (this is exactly the dict shape `upsert_record` receives
from the ingest loop). -/
def dumpTextRecord (t : String) : PyDict :=
  [("patient_identifier", .str "123"),
   ("given_name", .none),
   ("family_name", .none),
   ("gender", .none),
   ("birthdate", .none),
   ("encounter_datetime", .str "2023-01-01T12:00:00"),
   ("location_uuid", .none),
   ("provider_uuid", .none),
   ("tm2_code", .str "test_code"),
   ("openmrs_concept_uuid", .none),
   ("value_numeric", .none),
   ("value_text", .str t),
   ("value_coded", .none),
   ("idempotency_key", .str "k")]

/-- The one-row re-ingestion fixture of the spec
(`patient_identifier=123, source_code=test_code, value_numeric=42`). -/
def oneRowRecord : PyDict :=
  [("patient_identifier", .str "123"),
   ("tm2_code", .str "test_code"),
   ("value_numeric", .float "42.0")]

def wsPidRaw : PyDict :=
  [("patient_identifier", .str "   "), ("tm2_code", .str "test_code")]

def missingPidRaw : PyDict := [("tm2_code", .str "test_code")]

def badGenderRaw : PyDict :=
  [("patient_identifier", .str "123"), ("gender", .str "X"), ("tm2_code", .str "test_code")]

def textValueRaw : PyDict :=
  [("patient_identifier", .str "123"),
   ("tm2_code", .str "test_code"),
   ("value_text", .str "hello world")]

def fsOneRow : String → FileNode := fun p => if p = "data.csv" then .file [oneRowRecord] else .absent

def fsWithDir : String → FileNode := fun p => if p = "datadir" then .directory else .absent

/-- A pending primary-collection document as stored by a previous ingest. -/
def pendingFixture (k pid : String) : StoredDoc :=
  { idempotency_key := k,
    data := [("patient_identifier", .str pid), ("tm2_code", .str "test_code")],
    status := "processed", batch_id := "b0", created_at := 0, updated_at := 0,
    first_seen := some 0, submitted_at := none, submission_error := none }

/-- Four pending records awaiting submission. -/
def dlqBatchCol : List StoredDoc :=
  [pendingFixture "k1" "p1", pendingFixture "k2" "p2",
   pendingFixture "k3" "p3", pendingFixture "k4" "p4"]

/-- Whether a store operation writes to the given key (`upsert_record`
writes under the *recomputed* key of its record, never under an
externally supplied one; `mark_submitted` writes under its key
argument). -/
def opMarksKey : StoreOp → String → Bool
  | .upsertOp _ _ _, _ => false
  | .markOp k' _ _ _, k => k' == k

/-- The keys of the stored documents, in storage order. -/
def keysOf (col : List StoredDoc) : List String :=
  col.map (fun d => d.idempotency_key)

/-- Some document with the given key is pending. -/
def PendingLocked (col : List StoredDoc) (k : String) : Prop :=
  ∃ d ∈ col, d.idempotency_key = k ∧ isPending d = true

/-- Every document with the given key has been submitted (`submitted_at`
present), and one such document exists. -/
def SubmittedLocked (col : List StoredDoc) (k : String) : Prop :=
  (∃ d ∈ col, d.idempotency_key = k) ∧
    ∀ d ∈ col, d.idempotency_key = k → d.submitted_at.isSome = true

/-- Count of populated value slots of a transformed record. -/
def populatedSlots (t : TransformedTM2Record) : Nat :=
  t.value_numeric.isSome.toNat + t.value_text.isSome.toNat + t.value_coded.isSome.toNat

/-- Two record dicts agreeing on the four key fields but differing in
`given_name` (and in field order). -/
def c1recA : PyDict :=
  [("patient_identifier", .str "123"), ("encounter_datetime", .str "2023-01-01T12:00:00"),
   ("tm2_code", .str "test_code"), ("value_text", .str "v"), ("given_name", .str "John")]

def c1recB : PyDict :=
  [("given_name", .str "Jane"), ("patient_identifier", .str "123"),
   ("encounter_datetime", .str "2023-01-01T12:00:00"), ("tm2_code", .str "test_code"),
   ("value_text", .str "v")]

/-- A registry environment in which every creation call succeeds. -/
def envAllOk : OpenMRSEnv :=
  { create_patients := true, patient_result := some "pat-1",
    encounter_result := some "enc-1", obs_result := some "obs-1" }

/-- The re-ingestion experiment of the spec: ingest the one-row file twice
(fresh batch id and later clock on the second run) and check that the
first run reads and persists exactly one record, the second run reads
exactly one record, and the primary collection ends with exactly one
document. -/
def reingestTwiceCheck : Bool :=
  match ingest_from_file [] fsOneRow "data.csv" "batch-1" 0 [] with
  | .error _ => false
  | .ok st1 =>
    match ingest_from_file [] fsOneRow "data.csv" "batch-2" 1 st1.col with
    | .error _ => false
    | .ok st2 =>
      st1.stats.total_read == 1 && st1.stats.persisted_records == 1 &&
      st1.col.length == 1 && st2.stats.total_read == 1 && st2.col.length == 1

/-! # Theorems -/

/-- Sanity check for the SHA-256 embedding: the well-known digest of the
empty string. -/
example : sha256hex "" = "e3b0c44298fc1c149afbf4c8996fb92427ae41e4649b934ca495991b7852b855" := by
  decide

theorem byteHex_length (b : Nat) : (byteHex b).length = 2 := rfl

theorem wordHex_length (w : Nat) : (wordHex w).length = 8 := by
  simp [wordHex, byteHex_length]

theorem sha256hex_length (s : String) : (sha256hex s).length = 64 := by
  simp [sha256hex, Hash8.hexdigest, wordHex_length]

theorem sha256hex_ne_empty (s : String) : sha256hex s ≠ "" := by
  intro h
  have hl := sha256hex_length s
  rw [h] at hl
  simp at hl

theorem canonical_eq_fields (r : PyDict) :
    canonicalKeyString r = canonicalOfFields (keyFields r) := rfl

theorem compute_key_congr (r1 r2 : PyDict) (h : keyFields r1 = keyFields r2) :
    compute_idempotency_key r1 = compute_idempotency_key r2 := by
  show sha256hex (canonicalKeyString r1) = sha256hex (canonicalKeyString r2)
  rw [canonical_eq_fields, canonical_eq_fields, h]

theorem find?_key_none (col : List StoredDoc) (k : String)
    (h : ∀ d ∈ col, d.idempotency_key ≠ k) :
    col.find? (fun d => d.idempotency_key == k) = none := by
  rw [List.find?_eq_none]
  intro d hd
  simpa using h d hd

theorem updateFirst_no_match (col : List StoredDoc) (k : String) (f : StoredDoc → StoredDoc)
    (h : ∀ d ∈ col, d.idempotency_key ≠ k) : updateFirst col k f = (col, false) := by
  induction col with
  | nil => rfl
  | cons d ds ih =>
    have hd : d.idempotency_key ≠ k := h d (by simp)
    simp [updateFirst, hd, ih (fun e he => h e (by simp [he]))]

theorem updateFirst_append_cons (l1 : List StoredDoc) (d : StoredDoc) (l2 : List StoredDoc)
    (k : String) (f : StoredDoc → StoredDoc)
    (h1 : ∀ e ∈ l1, e.idempotency_key ≠ k) (hd : d.idempotency_key = k) :
    updateFirst (l1 ++ d :: l2) k f =
      (l1 ++ f d :: l2, if f d = d then false else true) := by
  induction l1 with
  | nil => simp [updateFirst, hd]
  | cons e es ih =>
    have he : e.idempotency_key ≠ k := h1 e (by simp)
    simp [updateFirst, he, ih (fun x hx => h1 x (by simp [hx]))]

theorem upsert_record_insert (col : List StoredDoc) (r : PyDict) (b : String) (t : Nat)
    (h : ∀ d ∈ col, d.idempotency_key ≠ compute_idempotency_key r) :
    upsert_record col r b t =
      (col ++ [newStoredDoc (compute_idempotency_key r) r b t], true) := by
  simp only [upsert_record]
  rw [find?_key_none col _ h]
  rfl

theorem upsert_record_update (l1 : List StoredDoc) (d : StoredDoc) (l2 : List StoredDoc)
    (r : PyDict) (b : String) (t : Nat)
    (h1 : ∀ e ∈ l1, e.idempotency_key ≠ compute_idempotency_key r)
    (hd : d.idempotency_key = compute_idempotency_key r) :
    upsert_record (l1 ++ d :: l2) r b t =
      (l1 ++ recordDocSet (compute_idempotency_key r) r b t d :: l2,
       if recordDocSet (compute_idempotency_key r) r b t d = d then false else true) := by
  simp only [upsert_record]
  have hfind : (l1 ++ d :: l2).find? (fun e => e.idempotency_key == compute_idempotency_key r) =
      some d := by
    rw [List.find?_append, find?_key_none l1 _ h1]
    simp [List.find?, hd]
  rw [hfind]
  simp [updateFirst_append_cons l1 d l2 _ _ h1 hd]

theorem mark_submitted_decomp (l1 : List StoredDoc) (d : StoredDoc) (l2 : List StoredDoc)
    (k : String) (success : Bool) (e : Option String) (t : Nat)
    (h1 : ∀ x ∈ l1, x.idempotency_key ≠ k) (hd : d.idempotency_key = k) :
    mark_submitted (l1 ++ d :: l2) k success e t =
      l1 ++ (if success then
              { d with updated_at := t, status := "submitted", submitted_at := some t }
             else
              { d with updated_at := t, status := "submission_failed",
                       submission_error := e }) :: l2 := by
  unfold mark_submitted
  rw [updateFirst_append_cons l1 d l2 k _ h1 hd]

theorem countKey_decomp_one (l1 : List StoredDoc) (d : StoredDoc) (l2 : List StoredDoc)
    (k : String) (h1 : ∀ e ∈ l1, e.idempotency_key ≠ k) (hd : d.idempotency_key = k)
    (h2 : ∀ e ∈ l2, e.idempotency_key ≠ k) : countKey (l1 ++ d :: l2) k = 1 := by
  unfold countKey
  rw [List.filter_append]
  have e1 : l1.filter (fun e => e.idempotency_key == k) = [] := by
    rw [List.filter_eq_nil_iff]
    intro e he
    simpa using h1 e he
  have e2 : l2.filter (fun e => e.idempotency_key == k) = [] := by
    rw [List.filter_eq_nil_iff]
    intro e he
    simpa using h2 e he
  simp [e1, e2, List.filter_cons, hd]

theorem countKey_one_decomp (col : List StoredDoc) (k : String) (h : countKey col k = 1) :
    ∃ l1 d l2, col = l1 ++ d :: l2 ∧ d.idempotency_key = k ∧
      (∀ e ∈ l1, e.idempotency_key ≠ k) ∧ (∀ e ∈ l2, e.idempotency_key ≠ k) := by
  induction col with
  | nil => simp [countKey] at h
  | cons d ds ih =>
    by_cases hd : d.idempotency_key = k
    · refine ⟨[], d, ds, rfl, hd, by simp, ?_⟩
      have hz : countKey ds k = 0 := by
        have := h
        simp only [countKey, List.filter_cons, beq_iff_eq, hd, if_true, List.length_cons] at this
        simpa [countKey] using this
      intro e he
      have := List.filter_eq_nil_iff.mp (List.length_eq_zero.mp hz) e he
      simpa using this
    · have hds : countKey ds k = 1 := by
        simpa [countKey, List.filter_cons, hd] using h
      obtain ⟨l1, d', l2, hcol, hk, hl1, hl2⟩ := ih hds
      refine ⟨d :: l1, d', l2, by simp [hcol], hk, ?_, hl2⟩
      intro e he
      rcases List.mem_cons.mp he with rfl | he2
      · exact hd
      · exact hl1 e he2

theorem mem_updateFirst (col : List StoredDoc) (k : String) (f : StoredDoc → StoredDoc) :
    ∀ e ∈ (updateFirst col k f).1,
      e ∈ col ∨ ∃ d ∈ col, d.idempotency_key = k ∧ e = f d := by
  induction col with
  | nil => simp [updateFirst]
  | cons d ds ih =>
    intro e he
    by_cases hd : d.idempotency_key = k
    · simp only [updateFirst, hd, if_pos] at he
      rcases List.mem_cons.mp he with rfl | he2
      · exact Or.inr ⟨d, by simp, hd, rfl⟩
      · exact Or.inl (by simp [he2])
    · simp only [updateFirst, hd, if_neg, not_false_iff] at he
      rcases List.mem_cons.mp he with rfl | he2
      · exact Or.inl (by simp)
      · rcases ih e he2 with h1 | ⟨d', hd', hk', he'⟩
        · exact Or.inl (by simp [h1])
        · exact Or.inr ⟨d', by simp [hd'], hk', he'⟩

theorem keysOf_updateFirst (col : List StoredDoc) (k : String) (f : StoredDoc → StoredDoc)
    (hf : ∀ d, d.idempotency_key = k → (f d).idempotency_key = k) :
    keysOf (updateFirst col k f).1 = keysOf col := by
  induction col with
  | nil => rfl
  | cons d ds ih =>
    by_cases hd : d.idempotency_key = k
    · simp [updateFirst, hd, keysOf, hf d hd]
    · simp only [updateFirst, hd, if_neg, not_false_iff]
      simpa [keysOf] using ih

theorem exists_key_of_keysOf (col : List StoredDoc) (k : String) :
    (∃ d ∈ col, d.idempotency_key = k) ↔ k ∈ keysOf col := by
  simp [keysOf, List.mem_map]

theorem pendingLocked_updateFirst (col : List StoredDoc) (k k' : String)
    (f : StoredDoc → StoredDoc)
    (hf : ∀ d, d.idempotency_key = k → d.idempotency_key = k' → isPending d = true →
      (f d).idempotency_key = k ∧ isPending (f d) = true)
    (h : PendingLocked col k) : PendingLocked (updateFirst col k' f).1 k := by
  induction col with
  | nil => simp [PendingLocked] at h
  | cons d ds ih =>
    obtain ⟨w, hw, hwk, hwp⟩ := h
    by_cases hd : d.idempotency_key = k'
    · rcases List.mem_cons.mp hw with rfl | hw2
      · exact ⟨f w, by simp [updateFirst, hd], (hf w hwk hd hwp).1, (hf w hwk hd hwp).2⟩
      · exact ⟨w, by simp [updateFirst, hd, hw2], hwk, hwp⟩
    · rcases List.mem_cons.mp hw with rfl | hw2
      · exact ⟨w, by simp [updateFirst, hd], hwk, hwp⟩
      · obtain ⟨w', hw', h1, h2⟩ := ih ⟨w, hw2, hwk, hwp⟩
        exact ⟨w', by simp [updateFirst, hd, hw'], h1, h2⟩

theorem pendingLocked_applyStoreOp (col : List StoredDoc) (k : String) (op : StoreOp)
    (hop : opMarksKey op k = false) (h : PendingLocked col k) :
    PendingLocked (applyStoreOp col op) k := by
  cases op with
  | upsertOp r b t =>
    show PendingLocked (upsert_record col r b t).1 k
    simp only [upsert_record]
    by_cases hfind :
        (col.find? (fun d => d.idempotency_key == compute_idempotency_key r)).isSome = true
    · rw [if_pos hfind]
      apply pendingLocked_updateFirst col k (compute_idempotency_key r) _ ?_ h
      intro d hdk hdk' hdp
      refine ⟨?_, ?_⟩
      · show compute_idempotency_key r = k
        exact hdk'.symm.trans hdk
      · have : d.submitted_at = none := by
          simp only [isPending, Bool.and_eq_true, beq_iff_eq] at hdp
          exact hdp.2
        simp [isPending, recordDocSet, this]
    · rw [if_neg hfind]
      obtain ⟨w, hw, h1, h2⟩ := h
      exact ⟨w, by simp [hw], h1, h2⟩
  | markOp k' s e t =>
    have hne : ¬(k' = k) := by simpa [opMarksKey] using hop
    show PendingLocked (mark_submitted col k' s e t) k
    unfold mark_submitted
    apply pendingLocked_updateFirst col k k' _ ?_ h
    intro d hdk hdk' _
    exact absurd (hdk'.symm.trans hdk) hne

theorem pendingLocked_applyStoreOps (col : List StoredDoc) (k : String) (ops : List StoreOp)
    (hops : ∀ op ∈ ops, opMarksKey op k = false) (h : PendingLocked col k) :
    PendingLocked (applyStoreOps col ops) k := by
  induction ops generalizing col with
  | nil => exact h
  | cons op rest ih =>
    exact ih (applyStoreOp col op) (fun o ho => hops o (by simp [ho]))
      (pendingLocked_applyStoreOp col k op (hops op (by simp)) h)

theorem submittedLocked_updateFirst (col : List StoredDoc) (k k' : String)
    (f : StoredDoc → StoredDoc)
    (hkeep : ∀ d, d.idempotency_key = k' → (f d).idempotency_key = k')
    (hsub : ∀ d, d.idempotency_key = k' → (f d).idempotency_key = k →
      d.idempotency_key = k ∧ (d.submitted_at.isSome = true → (f d).submitted_at.isSome = true))
    (h : SubmittedLocked col k) : SubmittedLocked (updateFirst col k' f).1 k := by
  obtain ⟨hex, hall⟩ := h
  constructor
  · rw [exists_key_of_keysOf, keysOf_updateFirst col k' f hkeep]
    exact (exists_key_of_keysOf col k).mp hex
  · intro e he hek
    rcases mem_updateFirst col k' f e he with h1 | ⟨d, hd, hdk, rfl⟩
    · exact hall e h1 hek
    · obtain ⟨hdk2, himp⟩ := hsub d hdk hek
      exact himp (hall d hd hdk2)

theorem submittedLocked_applyStoreOp (col : List StoredDoc) (k : String) (op : StoreOp)
    (h : SubmittedLocked col k) : SubmittedLocked (applyStoreOp col op) k := by
  cases op with
  | upsertOp r b t =>
    show SubmittedLocked (upsert_record col r b t).1 k
    simp only [upsert_record]
    by_cases hfind :
        (col.find? (fun d => d.idempotency_key == compute_idempotency_key r)).isSome = true
    · rw [if_pos hfind]
      apply submittedLocked_updateFirst col k (compute_idempotency_key r) _ ?_ ?_ h
      · intro d _
        rfl
      · intro d hdk hfk
        have hdk2 : d.idempotency_key = k := by
          rw [hdk]
          exact hfk
        refine ⟨hdk2, ?_⟩
        intro hs
        simpa [recordDocSet] using hs
    · rw [if_neg hfind]
      obtain ⟨⟨w, hw, hwk⟩, hall⟩ := h
      have hnomatch : ∀ d ∈ col, d.idempotency_key ≠ compute_idempotency_key r := by
        intro d hd
        have := List.find?_eq_none.mp (Option.not_isSome_iff_eq_none.mp hfind) d hd
        simpa using this
      refine ⟨⟨w, by simp [hw], hwk⟩, ?_⟩
      intro e he hek
      rcases List.mem_append.mp he with h1 | h1
      · exact hall e h1 hek
      · exfalso
        have : e = newStoredDoc (compute_idempotency_key r) r b t := by simpa using h1
        apply hnomatch w hw
        rw [hwk, ← hek, this]
        rfl
  | markOp k' s e t =>
    show SubmittedLocked (mark_submitted col k' s e t) k
    unfold mark_submitted
    apply submittedLocked_updateFirst col k k' _ ?_ ?_ h
    · intro d hdk
      cases s with
      | true => simpa using hdk
      | false => simpa using hdk
    · intro d hdk hfk
      have hdk2 : d.idempotency_key = k := by
        cases s with
        | true => simpa using hfk
        | false => simpa using hfk
      refine ⟨hdk2, ?_⟩
      intro hs
      cases s with
      | true => simp
      | false => simpa using hs

theorem submittedLocked_applyStoreOps (col : List StoredDoc) (k : String) (ops : List StoreOp)
    (h : SubmittedLocked col k) : SubmittedLocked (applyStoreOps col ops) k := by
  induction ops generalizing col with
  | nil => exact h
  | cons op rest ih => exact ih (applyStoreOp col op) (submittedLocked_applyStoreOp col k op h)

theorem pendingHasKey_of_pendingLocked (col : List StoredDoc) (k : String) (limit : Nat)
    (h : PendingLocked col k) (hl : col.length ≤ limit) : pendingHasKey col limit k = true := by
  obtain ⟨d, hd, hk, hp⟩ := h
  unfold pendingHasKey get_pending_records
  rw [List.take_of_length_le (le_trans (List.length_filter_le _ _) hl)]
  rw [List.any_eq_true]
  refine ⟨projectPending d, List.mem_map_of_mem _ (List.mem_filter.mpr ⟨hd, hp⟩), ?_⟩
  simp [projectPending, hk]

theorem not_pendingHasKey_of_submittedLocked (col : List StoredDoc) (k : String) (limit : Nat)
    (h : SubmittedLocked col k) : pendingHasKey col limit k = false := by
  unfold pendingHasKey get_pending_records
  rw [List.any_eq_false]
  intro p hp
  simp only [List.mem_map] at hp
  obtain ⟨d, hd, rfl⟩ := hp
  have hd2 : d ∈ col.filter isPending := List.mem_of_mem_take hd
  have hdc : d ∈ col := List.mem_of_mem_filter hd2
  have hdp : isPending d = true := List.of_mem_filter hd2
  simp only [projectPending, beq_iff_eq]
  intro hk
  have := h.2 d hdc hk
  simp only [isPending, Bool.and_eq_true, beq_iff_eq] at hdp
  rw [hdp.2] at this
  simp at this

theorem submittedLocked_mark_true (col : List StoredDoc) (k : String) (e : Option String)
    (t : Nat) (h : countKey col k = 1) :
    SubmittedLocked (mark_submitted col k true e t) k := by
  obtain ⟨l1, d, l2, rfl, hk, h1, h2⟩ := countKey_one_decomp col k h
  rw [mark_submitted_decomp l1 d l2 k true e t h1 hk]
  constructor
  · refine ⟨{ d with updated_at := t, status := "submitted", submitted_at := some t }, ?_, ?_⟩
    · simp
    · simpa using hk
  · intro x hx hxk
    rcases List.mem_append.mp hx with hm | hm
    · exact absurd hxk (h1 x hm)
    · rcases List.mem_cons.mp hm with rfl | hm2
      · simp
      · exact absurd hxk (h2 x hm2)

/-- C1: `compute_idempotency_key` is deterministic over exactly the four
logical fields — any two record dicts that agree on `patient_identifier`,
`encounter_datetime`, `tm2_code` and the value-as-string (each as the
function itself retrieves and renders them) receive the same SHA-256 hex
key, regardless of all other fields, field order, or how often the pure
function is invoked. -/
theorem c1_key_depends_only_on_four_fields (r1 r2 : PyDict)
    (h : keyFields r1 = keyFields r2) :
    compute_idempotency_key r1 = compute_idempotency_key r2 :=
  compute_key_congr r1 r2 h

theorem c1_witness :
    keyFields c1recA = keyFields c1recB ∧
      compute_idempotency_key c1recA = compute_idempotency_key c1recB :=
  ⟨by decide, c1_key_depends_only_on_four_fields c1recA c1recB (by decide)⟩

/-- C2 (code bug): the canonical string encoding is *not* injective on the
four-field tuple for the dicts actually passed to `upsert_record`.  A
`model_dump()` dict materialises `value_numeric` as a present key holding
`None`, so `record.get("value_numeric", ...)` never falls through to the
text or coded slot: two records differing only in `value_text` hash the
same canonical string (their `"value"` component is `"None"` for both)
and therefore receive the same idempotency key, so deduplication
collapses logically distinct records. -/
theorem c2_distinct_text_values_collide :
    dumpTextRecord "hello" ≠ dumpTextRecord "world" ∧
    (dumpTextRecord "hello").get "value_text" ≠ (dumpTextRecord "world").get "value_text" ∧
    compute_idempotency_key (dumpTextRecord "hello") =
      compute_idempotency_key (dumpTextRecord "world") := by
  refine ⟨by decide, by decide, ?_⟩
  exact compute_key_congr _ _ (by decide)

/-- C3 (counterexample): re-ingesting the same logical record is *not* a
no-op write-wise — the second upsert `$set`s a fresh `batch_id` and fresh
timestamps, Mongo therefore counts the document as modified, and the
returned write indicator is `true`, not `false`. -/
theorem c3_counterexample_reupsert_returns_true :
    (upsert_record (upsert_record [] oneRowRecord "batch-1" 0).1 oneRowRecord "batch-2" 1).2 =
      true := by
  have h1 : upsert_record [] oneRowRecord "batch-1" 0 =
      ([newStoredDoc (compute_idempotency_key oneRowRecord) oneRowRecord "batch-1" 0], true) :=
    upsert_record_insert [] _ _ _ (by simp)
  rw [h1]
  have h2 := upsert_record_update []
    (newStoredDoc (compute_idempotency_key oneRowRecord) oneRowRecord "batch-1" 0) []
    oneRowRecord "batch-2" 1 (by simp) rfl
  simp only [List.nil_append] at h2
  rw [h2]
  simp [recordDocSet, newStoredDoc, StoredDoc.mk.injEq]

/-- C3 (amended): `upsert_record` is insert-or-update keyed by the
idempotency key.  When no document carrying the key of the record exists, it
appends exactly one document (setting `first_seen`) and returns `true`;
upserting the same record again — here under a different batch id, as
always happens on re-ingestion since each run draws a fresh `uuid4` —
leaves exactly one document for that key, still succeeds, preserves
`first_seen`, refreshes `updated_at`, and returns `true` (not `false`):
the refresh of `batch_id`/timestamps itself counts as a modification.
The indicator is `false` only when the rewritten document is unchanged
(or on a duplicate-key race).  Consequently ingesting the identical
one-row file twice leaves exactly one document, with `total_read = 1` on
each run and `persisted_records = 1` on the first. -/
theorem c3_upsert_insert_then_update (col : List StoredDoc) (r : PyDict)
    (b1 b2 : String) (t1 t2 : Nat)
    (hfresh : ∀ d ∈ col, d.idempotency_key ≠ compute_idempotency_key r)
    (hb : b1 ≠ b2) :
    upsert_record col r b1 t1 =
      (col ++ [newStoredDoc (compute_idempotency_key r) r b1 t1], true) ∧
    countKey (col ++ [newStoredDoc (compute_idempotency_key r) r b1 t1])
      (compute_idempotency_key r) = 1 ∧
    (newStoredDoc (compute_idempotency_key r) r b1 t1).first_seen = some t1 ∧
    upsert_record (col ++ [newStoredDoc (compute_idempotency_key r) r b1 t1]) r b2 t2 =
      (col ++ [recordDocSet (compute_idempotency_key r) r b2 t2
                 (newStoredDoc (compute_idempotency_key r) r b1 t1)], true) ∧
    countKey (col ++ [recordDocSet (compute_idempotency_key r) r b2 t2
                        (newStoredDoc (compute_idempotency_key r) r b1 t1)])
      (compute_idempotency_key r) = 1 ∧
    (recordDocSet (compute_idempotency_key r) r b2 t2
      (newStoredDoc (compute_idempotency_key r) r b1 t1)).first_seen = some t1 ∧
    (recordDocSet (compute_idempotency_key r) r b2 t2
      (newStoredDoc (compute_idempotency_key r) r b1 t1)).updated_at = t2 ∧
    reingestTwiceCheck = true := by
  refine ⟨upsert_record_insert col r b1 t1 hfresh, ?_, rfl, ?_, ?_, rfl, rfl, by decide⟩
  · exact countKey_decomp_one col _ [] _ hfresh rfl (by simp)
  · have h2 := upsert_record_update col
      (newStoredDoc (compute_idempotency_key r) r b1 t1) [] r b2 t2 hfresh rfl
    rw [h2]
    have hne : recordDocSet (compute_idempotency_key r) r b2 t2
        (newStoredDoc (compute_idempotency_key r) r b1 t1) ≠
        newStoredDoc (compute_idempotency_key r) r b1 t1 := by
      intro hEq
      have := congrArg StoredDoc.batch_id hEq
      simp only [recordDocSet, newStoredDoc] at this
      exact hb this.symm
    rw [if_neg hne]
  · exact countKey_decomp_one col _ [] _ hfresh rfl (by simp)

theorem c3_witness :
    ((∀ d ∈ ([] : List StoredDoc), d.idempotency_key ≠ compute_idempotency_key oneRowRecord) ∧
      "batch-1" ≠ "batch-2") ∧
    upsert_record [] oneRowRecord "batch-1" 0 =
      ([newStoredDoc (compute_idempotency_key oneRowRecord) oneRowRecord "batch-1" 0], true) :=
  ⟨⟨by simp, by decide⟩,
   (c3_upsert_insert_then_update [] oneRowRecord "batch-1" "batch-2" 0 1
     (by simp) (by decide)).1⟩

/-- C4: pending-set round trip.  (a) A freshly upserted record (status
`processed`, no `submitted_at`) appears in `get_pending_records` whenever
`limit` accommodates the collection; (b) the pending page never exceeds
`limit`; (c) every returned page entry is the projection of a stored
document with status `processed` and no `submitted_at`; (d) the record
stays in the pending set across any further upserts and any
`mark_submitted` calls for other keys; (e) once
`mark_submitted(key, success=True)` runs, the key never appears in the
pending set again, whatever upserts or status updates follow (no
operation ever unsets `submitted_at`). -/
theorem c4_pending_round_trip :
    (∀ col r b t limit,
       (∀ d ∈ col, d.idempotency_key ≠ compute_idempotency_key r) →
       (upsert_record col r b t).1.length ≤ limit →
       projectPending (newStoredDoc (compute_idempotency_key r) r b t) ∈
         get_pending_records (upsert_record col r b t).1 limit) ∧
    (∀ col limit, (get_pending_records col limit).length ≤ limit) ∧
    (∀ col limit p, p ∈ get_pending_records col limit →
       ∃ d ∈ col, isPending d = true ∧ projectPending d = p) ∧
    (∀ col r b t ops limit,
       (∀ d ∈ col, d.idempotency_key ≠ compute_idempotency_key r) →
       (∀ op ∈ ops, opMarksKey op (compute_idempotency_key r) = false) →
       (applyStoreOps (upsert_record col r b t).1 ops).length ≤ limit →
       pendingHasKey (applyStoreOps (upsert_record col r b t).1 ops) limit
         (compute_idempotency_key r) = true) ∧
    (∀ col k e t ops limit, countKey col k = 1 →
       pendingHasKey (applyStoreOps (mark_submitted col k true e t) ops) limit k = false) := by
  refine ⟨?_, ?_, ?_, ?_, ?_⟩
  · intro col r b t limit hfresh hlen
    rw [upsert_record_insert col r b t hfresh] at hlen ⊢
    unfold get_pending_records
    have hp : isPending (newStoredDoc (compute_idempotency_key r) r b t) = true := rfl
    rw [List.filter_append]
    have hfl : (col.filter isPending ++
        [newStoredDoc (compute_idempotency_key r) r b t].filter isPending).length ≤ limit := by
      have h1 : (col.filter isPending).length ≤ col.length := List.length_filter_le _ _
      have h2 : ([newStoredDoc (compute_idempotency_key r) r b t].filter isPending).length ≤ 1 :=
        List.length_filter_le _ _
      simp only [List.length_append, List.length_cons, List.length_nil] at hlen ⊢
      omega
    rw [List.take_of_length_le hfl]
    refine List.mem_map_of_mem _ ?_
    rw [List.mem_append]
    right
    simp [hp]
  · intro col limit
    unfold get_pending_records
    rw [List.length_map]
    have := List.length_take limit (col.filter isPending)
    omega
  · intro col limit p hp
    unfold get_pending_records at hp
    obtain ⟨d, hd, rfl⟩ := List.mem_map.mp hp
    have hd2 := List.mem_of_mem_take hd
    exact ⟨d, List.mem_of_mem_filter hd2, List.of_mem_filter hd2, rfl⟩
  · intro col r b t ops limit hfresh hops hlen
    have hstart : PendingLocked (upsert_record col r b t).1 (compute_idempotency_key r) := by
      rw [upsert_record_insert col r b t hfresh]
      exact ⟨newStoredDoc (compute_idempotency_key r) r b t, by simp, rfl, rfl⟩
    exact pendingHasKey_of_pendingLocked _ _ limit
      (pendingLocked_applyStoreOps _ _ ops hops hstart) hlen
  · intro col k e t ops limit hone
    exact not_pendingHasKey_of_submittedLocked _ _ limit
      (submittedLocked_applyStoreOps _ _ ops (submittedLocked_mark_true col k e t hone))

theorem c4_witness :
    countKey [pendingFixture "k1" "p1"] "k1" = 1 ∧
    pendingHasKey
      (applyStoreOps (mark_submitted [pendingFixture "k1" "p1"] "k1" true none 5)
        [StoreOp.markOp "k2" false (some "boom") 6]) 10 "k1" = false :=
  ⟨by decide,
   c4_pending_round_trip.2.2.2.2 [pendingFixture "k1" "p1"] "k1" none 5
     [StoreOp.markOp "k2" false (some "boom") 6] 10 (by decide)⟩

/-- C5 (code bug): dead-lettering is driven by the *batch-wide* failure
counter, not a per-record retry budget.  In a submission batch of four
pending records whose submissions all raise, each record is attempted
exactly once (so no record can "fail 4 consecutive times within one
batch"), yet the fourth record is moved to the dead-letter queue after a
single failure, merely because three *other* records failed before it;
records failing with a `False` return would never be dead-lettered at
all. -/
theorem c5_batch_wide_counter_dead_letters_fourth_record :
    (get_pending_records dlqBatchCol 100).length = 4 ∧
    (submit_pending_records dlqBatchCol [] (fun _ => .raised "boom") 100 "batch-s" 7).stats.attempted = 4 ∧
    (submit_pending_records dlqBatchCol [] (fun _ => .raised "boom") 100 "batch-s" 7).stats.failed = 4 ∧
    (submit_pending_records dlqBatchCol [] (fun _ => .raised "boom") 100 "batch-s" 7).stats.successful = 0 ∧
    (submit_pending_records dlqBatchCol [] (fun _ => .raised "boom") 100 "batch-s" 7).dlq =
      [{ original_record := (pendingFixture "k4" "p4").data,
         error_message := "Submission error: boom", batch_id := "batch-s", created_at := 7 }] := by
  decide

/-- C6 (counterexample): a whitespace-only `patient_identifier` does NOT
raise a `ValidationError` — the pydantic field is a plain `str`, the
`strip_whitespace` validator reduces `"   "` to `""`, and validation
succeeds with an empty identifier. -/
theorem c6_counterexample_whitespace_identifier_accepted :
    (match validate_and_transform [] wsPidRaw with
     | .ok tr => tr.patient_identifier == ""
     | .error _ => false) = true := by
  decide

/-- C6 (amended): validation fails for a missing `patient_identifier` and
for a gender outside the enumerated set (case-insensitively), and on any
validation failure the ingest loop increments `invalid_records`, appends
a descriptive error, leaves the collection and `persisted_records`
untouched, and continues with the remaining records; but an empty or
whitespace-only `patient_identifier` is stripped and accepted rather than
rejected. -/
theorem c6_validation_errors_and_loop (m : List (String × String)) : 
    (∀ raw : PyDict, raw.get "patient_identifier" = none →
       validate_and_transform m raw = .error "Field required: patient_identifier") ∧
    (∀ (raw : PyDict) (pid : String) (gv fv : Option String) (g : String),
       requiredStr raw "patient_identifier" = .ok pid →
       optionalStr raw "given_name" = .ok gv →
       optionalStr raw "family_name" = .ok fv →
       optionalStr raw "gender" = .ok (some g) →
       ¬(pyUpper g = "M" ∨ pyUpper g = "F" ∨ pyUpper g = "O" ∨ pyUpper g = "U") →
       validate_and_transform m raw = .error "Gender must be M, F, O, or U") ∧
    (∀ (b : String) (t : Nat) (st : IngestState) (raw : PyDict) (e : String),
       validate_and_transform m raw = .error e →
       ingestStep m b t st raw =
         ⟨st.col,
          { st.stats with
            total_read := st.stats.total_read + 1,
            invalid_records := st.stats.invalid_records + 1,
            errors := st.stats.errors ++ ["Validation error: " ++ e] }⟩) ∧
    (∀ (b : String) (t : Nat) (st : IngestState) (raw : PyDict) (rest : List PyDict),
       (raw :: rest).foldl (ingestStep m b t) st =
         rest.foldl (ingestStep m b t) (ingestStep m b t st raw)) := by
  refine ⟨?_, ?_, ?_, ?_⟩
  · intro raw hget
    have hreq : requiredStr raw "patient_identifier" =
        .error "Field required: patient_identifier" := by
      unfold requiredStr
      rw [hget]
      rfl
    unfold validate_and_transform validateRawRecord
    rw [hreq]
    rfl
  · intro raw pid gv fv g hpid hgv hfv hg hbad
    have hgen : validateGender (some g) = .error "Gender must be M, F, O, or U" := by
      unfold validateGender
      simp only [if_neg hbad]
    have hraw : validateRawRecord raw = .error "Gender must be M, F, O, or U" := by
      unfold validateRawRecord
      rw [hpid, hgv, hfv, hg]
      simp only [exBind]
      rw [hgen]
    unfold validate_and_transform
    rw [hraw]
  · intro b t st raw e he
    unfold ingestStep
    rw [he]
  · intro b t st raw rest
    exact List.foldl_cons _ _

theorem c6_witness :
    (missingPidRaw.get "patient_identifier" = none) ∧
    validate_and_transform [] missingPidRaw = .error "Field required: patient_identifier" :=
  ⟨by decide, (c6_validation_errors_and_loop []).1 missingPidRaw (by decide)⟩

/-- C7 (counterexample): a directory path makes `ingest_from_file` raise
`ValueError` (`"Expected a file path but got a directory: ..."`), not a
`NotAFileError` — no such exception class exists anywhere in the code. -/
theorem c7_counterexample_directory_raises_value_error :
    ingest_from_file [] fsWithDir "datadir" "b" 0 [] =
      .error (.valueError "Expected a file path but got a directory: datadir") := rfl

/-- C7 (amended): a nonexistent path fails with `FileNotFoundError` and a
directory with `ValueError`, in both cases before any record is read —
the error result carries no statistics, no batch, and no collection
update. -/
theorem c7_fail_fast_path_checks (m : List (String × String)) (fs : String → FileNode)
    (path b : String) (t : Nat) (col : List StoredDoc) :
    (fs path = .absent →
       ingest_from_file m fs path b t col =
         .error (.fileNotFound ("Data file not found: " ++ path))) ∧
    (fs path = .directory →
       ingest_from_file m fs path b t col =
         .error (.valueError ("Expected a file path but got a directory: " ++ path))) := by
  constructor
  · intro h
    unfold ingest_from_file
    rw [h]
  · intro h
    unfold ingest_from_file
    rw [h]

theorem c7_witness :
    (fsOneRow "missing.csv" = .absent) ∧
    ingest_from_file [] fsOneRow "missing.csv" "b" 0 [] =
      .error (.fileNotFound "Data file not found: missing.csv") :=
  ⟨rfl, (c7_fail_fast_path_checks [] fsOneRow "missing.csv" "b" 0 []).1 rfl⟩

/-- C8: every record `validate_and_transform` accepts has at most one of
`value_numeric` / `value_text` / `value_coded` populated, namely the
first slot of the raw record that is present in the precedence order
numeric (not `None`), then text (truthy), then coded (truthy); if no slot
is present all three are unpopulated. -/
theorem c8_value_slot_invariant (m : List (String × String)) (raw : PyDict)
    (r : RawTM2Record) (hr : validateRawRecord raw = .ok r) :
    ∃ tr, validate_and_transform m raw = .ok tr ∧
      populatedSlots tr ≤ 1 ∧
      (∀ n, r.value_numeric = some n →
         tr.value_numeric = some n ∧ tr.value_text = none ∧ tr.value_coded = none) ∧
      (r.value_numeric = none → ∀ s, r.value_text = some s → s ≠ "" →
         tr.value_numeric = none ∧ tr.value_text = some (clean_text s) ∧
           tr.value_coded = none) ∧
      (r.value_numeric = none → (r.value_text = none ∨ r.value_text = some "") →
         ∀ c, r.value_coded = some c → c ≠ "" →
         tr.value_numeric = none ∧ tr.value_text = none ∧ tr.value_coded = some c) ∧
      (r.value_numeric = none → (r.value_text = none ∨ r.value_text = some "") →
         (r.value_coded = none ∨ r.value_coded = some "") →
         tr.value_numeric = none ∧ tr.value_text = none ∧ tr.value_coded = none) := by
  have hva : validate_and_transform m raw = .ok (mkTransformed m r) := by
    unfold validate_and_transform
    rw [hr]
    show (if compute_idempotency_key (clean_text_step (transformedData m r)) = "" then
            Except.error "Idempotency key must be a non-empty string"
          else Except.ok (mkTransformed m r)) = Except.ok (mkTransformed m r)
    exact if_neg (sha256hex_ne_empty _)
  rw [hva]
  refine ⟨mkTransformed m r, rfl, ?_, ?_, ?_, ?_, ?_⟩
  · rcases hp : pickValueSlot r with n | s | c | _ <;>
      simp [populatedSlots, mkTransformed, hp]
  · intro n hn
    simp [mkTransformed, pickValueSlot, hn]
  · intro hn s hs hne
    simp [mkTransformed, pickValueSlot, hn, hs, hne]
  · intro hn htext c hc hcne
    rcases htext with ht | ht <;>
      simp [mkTransformed, pickValueSlot, codedFallback, hn, ht, hc, hcne]
  · intro hn htext hcoded
    rcases htext with ht | ht <;> rcases hcoded with hc | hc <;>
      simp [mkTransformed, pickValueSlot, codedFallback, hn, ht, hc]

theorem c8_witness :
    validateRawRecord oneRowRecord =
      .ok { patient_identifier := "123", given_name := none, family_name := none,
            gender := none, birthdate := none, encounter_datetime := none,
            location_uuid := none, provider_uuid := none, tm2_code := "test_code",
            value_numeric := some "42.0", value_text := none, value_coded := none } ∧
    ∃ tr, validate_and_transform [] oneRowRecord = .ok tr ∧ populatedSlots tr ≤ 1 := by
  refine ⟨rfl, ?_⟩
  obtain ⟨tr, h1, h2, _⟩ := c8_value_slot_invariant [] oneRowRecord
    { patient_identifier := "123", given_name := none, family_name := none,
      gender := none, birthdate := none, encounter_datetime := none,
      location_uuid := none, provider_uuid := none, tm2_code := "test_code",
      value_numeric := some "42.0", value_text := none, value_coded := none } rfl
  exact ⟨tr, h1, h2⟩

/-- C9: `submit_tm2_record` succeeds iff subject resolution (pre-supplied
truthy UUID or enabled-and-successful patient creation), encounter
creation and observation creation all succeed, attempted in that order;
any failure short-circuits (later creation calls are not attempted), and
the call list shows no compensating action is ever taken for entities
already created before a failure. -/
theorem c9_submit_all_or_nothing (env : OpenMRSEnv) (record : PyDict)
    (patient_uuid : Option String) :
    ((submit_tm2_record env record patient_uuid).1 = true ↔
       (pyTruthy (resolvedSubject env patient_uuid) = true ∧
        pyTruthy env.encounter_result = true ∧ env.obs_result.isSome = true)) ∧
    (submit_tm2_record env record patient_uuid).2 =
      (if !(pyTruthy patient_uuid) && env.create_patients then [OmrsCall.createPatient]
       else []) ++
      (if pyTruthy (resolvedSubject env patient_uuid) then
         [OmrsCall.createEncounter] ++
           (if pyTruthy env.encounter_result then [OmrsCall.createObservation] else [])
       else []) ∧
    (pyTruthy (resolvedSubject env patient_uuid) = false →
       OmrsCall.createEncounter ∉ (submit_tm2_record env record patient_uuid).2 ∧
       OmrsCall.createObservation ∉ (submit_tm2_record env record patient_uuid).2) ∧
    (pyTruthy env.encounter_result = false →
       OmrsCall.createObservation ∉ (submit_tm2_record env record patient_uuid).2) := by
  by_cases h1 : pyTruthy patient_uuid = true <;>
    by_cases h2 : env.create_patients = true <;>
    by_cases h3 : pyTruthy (create_patient env) = true <;>
    by_cases h4 : pyTruthy env.encounter_result = true <;>
    by_cases h5 : env.obs_result.isSome = true <;>
    simp_all [submit_tm2_record, resolvedSubject]

theorem c9_witness : (submit_tm2_record envAllOk [] none).1 = true :=
  (c9_submit_all_or_nothing envAllOk [] none).1.mpr (by decide)

/-- C10 (code bug): for a record whose value lives in `value_text`, the
top-level key `upsert_record` recomputes from `model_dump()` (where
`value_numeric` is present as `None`, so the `"value"` component is
`"None"`) differs from the `idempotency_key` the validator embedded in
the record (computed on a dict holding only the populated slot, so its
`"value"` component is the text itself); the two computations agree for a
numeric-valued record. -/
theorem c10_embedded_and_stored_keys_disagree :
    keysAgree [] textValueRaw = false ∧ keysAgree [] oneRowRecord = true := by
  decide
